import Mathlib

/-!
Shallow embedding of the checkin-bot core (check-in service, repositories,
update single-flight guard, captcha poll loop, site adapter classification
and the credential vault framing) together with proofs settling the frozen
claims about it.

Conventions of the embedding:
* `core/timezone.now()` returns a naive local datetime; it is modelled by
  `LocalTime` (a local day index plus hour and minute).  All SQL date
  comparisons (`DATE(executed_at) = CURRENT_DATE`) become comparisons of the
  `day` field, and interval comparisons go through `LocalTime.toMinutes`.
* the relational store is modelled with the log table as an append-only list,
  the account table as a by-id partial map and the account_updates table as a
  list of rows; each repository method is one atomic step, matching the
  single-statement (or single-CTE) SQL it runs.
* external HTTP effects (site adapter responses, balance reads, captcha poll
  responses) are oracle parameters: the function receives the value the wire
  call would have produced.
-/

namespace CheckinBot

/-- `CheckinStatus` from `config/constants.py`.  The third enum member
(`PARTIAL`) is never produced by any code path modelled here and is omitted. -/
inductive CheckinStatus where
  | success
  | failed
  deriving DecidableEq, Repr

/-- `UpdateStatus` from `config/constants.py`. -/
inductive UpdateStatus where
  | pending
  | processing
  | completed
  | failed
  deriving DecidableEq, Repr

/-- `SiteType` from `config/constants.py`. -/
inductive SiteType where
  | nodeseek
  | deepflood
  deriving DecidableEq, Repr

/-- A naive local datetime as returned by `core/timezone.now()`:
`day` is the local calendar-day index, `hour` and `minute` the wall-clock
fields.  `DATE(t)` is `t.day`. -/
structure LocalTime where
  day : Nat
  hour : Nat
  minute : Nat
  deriving DecidableEq, Repr

/-- Absolute minute count of a local instant, used for SQL interval
comparisons such as `executed_at > NOW() - INTERVAL '1 day' * days`. -/
def LocalTime.toMinutes (t : LocalTime) : Int :=
  ((t.day * 24 + t.hour) * 60 + t.minute : Nat)

/-- `utils/time_slot.calculate_slot`: `dt.minute // 12` (its own doc string
says the range is 0-4). -/
def calculate_slot (t : LocalTime) : Nat :=
  t.minute / 12

/-- The `(hour, slot)` pair the anti-duplicate comparison in
`CheckinService._should_checkin` builds inline:
`(t.hour, t.minute // 12 + 1)` (slots numbered from 1 there). -/
def slotPair (t : LocalTime) : Nat × Nat :=
  (t.hour, t.minute / 12 + 1)

/-- One row of the `accounts` table (the fields the modelled paths touch). -/
structure Account where
  id : Nat
  userId : Nat
  site : SiteType
  siteUsername : String
  credits : Int
  checkinCount : Nat
  checkinHour : Option Nat
  deriving DecidableEq, Repr

/-- One row of the append-only `checkin_logs` table. -/
structure LogRow where
  accountId : Nat
  site : SiteType
  status : CheckinStatus
  message : Option String
  creditsDelta : Int
  creditsBefore : Option Int
  creditsAfter : Option Int
  errorCode : Option String
  executedAt : LocalTime
  deriving DecidableEq, Repr

/-- The store as the check-in service sees it: the `accounts` table as a
by-id map and the `checkin_logs` table as an append-only list. -/
structure Store where
  accounts : Nat → Option Account
  logs : List LogRow

/-- `CheckinLogRepository.get_today_success_count`: count of rows for the
account with status `success` and `DATE(executed_at) = CURRENT_DATE`. -/
def getTodaySuccessCount (logs : List LogRow) (accountId : Nat) (today : Nat) : Nat :=
  (logs.filter fun r =>
    decide (r.accountId = accountId ∧ r.status = CheckinStatus.success ∧
      r.executedAt.day = today)).length

/-- Helper for `ORDER BY executed_at ASC LIMIT 1`: the row with the smallest
`executed_at` (the first such row when several tie). -/
def earliestRow (f : LogRow → Int) : List LogRow → Option LogRow
  | [] => none
  | r :: rs =>
    match earliestRow f rs with
    | none => some r
    | some b => if f r ≤ f b then some r else some b

/-- `CheckinLogRepository.get_today_success_delta`: `credits_delta` of the
earliest `success` row of the current local day, else 0 (the Python applies
`or 0` to the fetched value). -/
def getTodaySuccessDelta (logs : List LogRow) (accountId : Nat) (today : Nat) : Int :=
  match earliestRow (fun r => r.executedAt.toMinutes)
      (logs.filter fun r =>
        decide (r.accountId = accountId ∧ r.status = CheckinStatus.success ∧
          r.executedAt.day = today)) with
  | none => 0
  | some r => r.creditsDelta

/-- `CheckinLogRepository.get_recent_slots`: `executed_at` of `success` rows
with `executed_at > NOW() - INTERVAL '1 day' * days`.  The SQL orders the
result descending; only membership matters to the callers modelled here. -/
def getRecentSlots (logs : List LogRow) (accountId : Nat) (now : LocalTime)
    (days : Nat) : List LocalTime :=
  (logs.filter fun r =>
    decide (r.accountId = accountId ∧ r.status = CheckinStatus.success ∧
      now.toMinutes - (days * 1440 : Nat) < r.executedAt.toMinutes)).map
    (fun r => r.executedAt)

/-- The number of distinct local days carrying a `success` row for the
account (the quantity the spec's counter invariant compares
`checkin_count` against). -/
def numSuccessDays (logs : List LogRow) (accountId : Nat) : Nat :=
  ((logs.filter fun r =>
      decide (r.accountId = accountId ∧ r.status = CheckinStatus.success)).map
    (fun r => r.executedAt.day)).toFinset.card

/-- `AccountRepository.update_credits`: `SET credits = $1,
checkin_count = checkin_count + $2 WHERE id = $4`. -/
def updateCredits (accounts : Nat → Option Account) (accountId : Nat)
    (credits : Int) (inc : Nat) : Nat → Option Account :=
  fun i =>
    if i = accountId then
      (accounts i).map fun a =>
        { a with credits := credits, checkinCount := a.checkinCount + inc }
    else accounts i

/-- The dictionary a site adapter's `checkin` returns (`user_id` is attached
later by the service). -/
structure AdapterResult where
  success : Bool
  status : CheckinStatus
  message : String
  creditsDelta : Int
  creditsBefore : Option Int
  creditsAfter : Option Int
  errorCode : Option String
  deriving DecidableEq, Repr

/-- The result dictionary `CheckinService` hands back (adapter fields plus
the `user_id` the service attaches; the account-missing failure carries
`user_id = None`). -/
structure CheckinOutcome where
  success : Bool
  status : CheckinStatus
  message : String
  creditsDelta : Int
  creditsBefore : Option Int
  creditsAfter : Option Int
  errorCode : Option String
  userId : Option Nat
  deriving DecidableEq, Repr

/-- The in-process state of `CheckinService`: the `{account_id: bool}`
today-cache and the date it was built for. -/
structure ServiceState where
  todayCache : List (Nat × Bool)
  cacheDate : Option Nat
  deriving DecidableEq, Repr

/-- Everything one `_do_checkin` call produces: the new service state, the
new store, the returned dictionary and whether the site adapter was hit. -/
structure DoCheckinResult where
  svc : ServiceState
  store : Store
  outcome : CheckinOutcome
  adapterInvoked : Bool

/-- The tail of `CheckinService._do_checkin` (lines 104-164), reached when
the today-cache does not report a success: the site adapter is invoked and
`result` is the dictionary it returned; the service then logs the first
success of the day (or every failure) and reconciles credits and
`checkin_count`. -/
def doCheckinAdapterPath (svc : ServiceState) (store : Store) (account : Account)
    (result : AdapterResult) (now : LocalTime) : DoCheckinResult :=
  let today := now.day
  let hasTodayLog := decide (0 < getTodaySuccessCount store.logs account.id today)
  let shouldIncrement := result.success && !hasTodayLog
  let newRow : LogRow :=
    { accountId := account.id, site := account.site, status := result.status,
      message := some result.message, creditsDelta := result.creditsDelta,
      creditsBefore := result.creditsBefore, creditsAfter := result.creditsAfter,
      errorCode := result.errorCode, executedAt := now }
  -- log only the first success of the day; always log failures
  let logs1 :=
    if result.success then
      if !hasTodayLog then store.logs ++ [newRow] else store.logs
    else store.logs ++ [newRow]
  -- update credits and count only when success carries a balance
  let accounts1 :=
    if result.success then
      match result.creditsAfter with
      | some after =>
        updateCredits store.accounts account.id after
          (if shouldIncrement then 1 else 0)
      | none => store.accounts
    else store.accounts
  { svc := svc, store := ⟨accounts1, logs1⟩,
    outcome :=
      { success := result.success, status := result.status,
        message := result.message, creditsDelta := result.creditsDelta,
        creditsBefore := result.creditsBefore,
        creditsAfter := result.creditsAfter,
        errorCode := result.errorCode, userId := some account.userId },
    adapterInvoked := true }

/-- `CheckinService._do_checkin`.  `adapterResult` is the dictionary the site
adapter would return if it were invoked (an oracle for the HTTP call); the
exception branch is not modelled. -/
def doCheckin (svc : ServiceState) (store : Store) (account : Account)
    (adapterResult : AdapterResult) (now : LocalTime) : DoCheckinResult :=
  let today := now.day
  -- clear the cache if the date has changed
  let svc1 : ServiceState :=
    if svc.cacheDate ≠ some today then ⟨[], some today⟩ else svc
  -- populate the cache entry from the store when absent
  let svc2 : ServiceState :=
    if (svc1.todayCache.lookup account.id).isNone then
      { svc1 with todayCache :=
          (account.id,
            decide (0 < getTodaySuccessCount store.logs account.id today)) ::
            svc1.todayCache }
    else svc1
  if svc2.todayCache.lookup account.id = some true then
    -- short-circuit: synthetic success, adapter not contacted
    let todayDelta := getTodaySuccessDelta store.logs account.id today
    { svc := svc2, store := store,
      outcome :=
        { success := true, status := CheckinStatus.success,
          message := "今日已签到", creditsDelta := todayDelta,
          creditsBefore := some account.credits,
          creditsAfter := some account.credits,
          errorCode := none, userId := some account.userId },
      adapterInvoked := false }
  else
    doCheckinAdapterPath svc2 store account adapterResult now

/-- `CheckinService.manual_checkin`: look the account up; when it is missing
return the fixed failure dictionary without touching anything, otherwise run
`_do_checkin`. -/
def manualCheckin (svc : ServiceState) (store : Store) (accountId : Nat)
    (adapterResult : AdapterResult) (now : LocalTime) : DoCheckinResult :=
  match store.accounts accountId with
  | none =>
    { svc := svc, store := store,
      outcome :=
        { success := false, status := CheckinStatus.failed,
          message := "账号不存在", creditsDelta := 0, creditsBefore := none,
          creditsAfter := none, errorCode := none, userId := none },
      adapterInvoked := false }
  | some account => doCheckin svc store account adapterResult now

/-- `CheckinService._should_checkin`: true unless some recent success shares
the current `(hour, slot)` pair. -/
def shouldCheckin (recentSlots : List LocalTime) (current : LocalTime) : Bool :=
  recentSlots.all fun logTime => !decide (slotPair logTime = slotPair current)

/-- The per-account body of `CheckinService._execute_checkins_concurrently`
(`checkin_with_catch` without the exception guard): skip and return `None`
when `_should_checkin` is false, otherwise run `_do_checkin`. -/
def tickAccount (svc : ServiceState) (store : Store) (account : Account)
    (adapterResult : AdapterResult) (now : LocalTime) : Option DoCheckinResult :=
  if shouldCheckin (getRecentSlots store.logs account.id now 4) now then
    some (doCheckin svc store account adapterResult now)
  else
    none

/-- One row of the `account_updates` table. -/
structure UpdateRow where
  id : Nat
  accountId : Nat
  status : UpdateStatus
  startedAt : Option LocalTime
  completedAt : Option LocalTime
  errorMessage : Option String
  createdAt : LocalTime
  deriving DecidableEq, Repr

/-- A row counts as active while its status is `pending` or `processing`. -/
def UpdateRow.isActive (r : UpdateRow) : Bool :=
  match r.status with
  | UpdateStatus.pending => true
  | UpdateStatus.processing => true
  | _ => false

/-- Helper for `ORDER BY created_at DESC LIMIT 1` over update rows. -/
def latestUpdateRow (f : UpdateRow → Int) : List UpdateRow → Option UpdateRow
  | [] => none
  | r :: rs =>
    match latestUpdateRow f rs with
    | none => some r
    | some b => if f b < f r then some r else some b

/-- The `existing` CTE of `try_create_or_get_active` (also
`get_active_by_account`): the newest active row of the account. -/
def getActiveRow (rows : List UpdateRow) (accountId : Nat) : Option UpdateRow :=
  latestUpdateRow (fun r => r.createdAt.toMinutes)
    (rows.filter fun r => decide (r.accountId = accountId) && r.isActive)

/-- `AccountUpdateRepository.try_create_or_get_active`: one atomic statement
that returns the existing active row if there is one and otherwise inserts a
fresh `pending` row stamped `t`; the Python then judges `is_new` by
`status == PENDING and created_at == current_time`. -/
def tryCreateOrGetActive (rows : List UpdateRow) (accountId : Nat)
    (freshId : Nat) (t : LocalTime) : (Bool × UpdateRow) × List UpdateRow :=
  let fetched : UpdateRow × List UpdateRow :=
    match getActiveRow rows accountId with
    | some existing => (existing, rows)
    | none =>
      let newRow : UpdateRow :=
        { id := freshId, accountId := accountId, status := UpdateStatus.pending,
          startedAt := none, completedAt := none, errorMessage := none,
          createdAt := t }
      (newRow, rows ++ [newRow])
  let record := fetched.1
  ((decide (record.status = UpdateStatus.pending ∧ record.createdAt = t), record),
    fetched.2)

/-- The value a DB driver parameter for a TIMESTAMP column receives: either a
datetime value or (as `force_create` actually does at
`account_update_repository.py:112`) the Python function object `now`. -/
inductive SqlTimestampArg where
  | value (t : LocalTime)
  | pyFunctionNow
  deriving DecidableEq, Repr

/-- The driver encodes a timestamp parameter; a function object cannot be
encoded and raises a type error. -/
def encodeTimestamp : SqlTimestampArg → Except String LocalTime
  | SqlTimestampArg.value t => Except.ok t
  | SqlTimestampArg.pyFunctionNow =>
    Except.error "DataError: invalid input for query argument created_at"

/-- `AccountUpdateRepository.force_create`.  The DELETE of the active rows
and the INSERT are separate statements on an autocommit connection, so the
DELETE takes effect first; the INSERT then passes the function object `now`
(not the computed `current_time`) as the `created_at` parameter.  Returns the
table after the DELETE together with the outcome of the INSERT. -/
def forceCreate (rows : List UpdateRow) (accountId : Nat) (freshId : Nat)
    (_currentTime : LocalTime) : List UpdateRow × Except String UpdateRow :=
  let rows1 := rows.filter fun r => !(decide (r.accountId = accountId) && r.isActive)
  match encodeTimestamp SqlTimestampArg.pyFunctionNow with
  | Except.error e => (rows1, Except.error e)
  | Except.ok ts =>
    let newRow : UpdateRow :=
      { id := freshId, accountId := accountId, status := UpdateStatus.pending,
        startedAt := none, completedAt := none, errorMessage := none,
        createdAt := ts }
    (rows1 ++ [newRow], Except.ok newRow)

/-- The behaviour the spec prescribes for `update.force_begin` (named for
comparison with `forceCreate`): delete any active row, insert a fresh
`pending` row whose `created_at` is the current instant, return it. -/
def forceBeginSpec (rows : List UpdateRow) (accountId : Nat) (freshId : Nat)
    (currentTime : LocalTime) : List UpdateRow × UpdateRow :=
  let rows1 := rows.filter fun r => !(decide (r.accountId = accountId) && r.isActive)
  let newRow : UpdateRow :=
    { id := freshId, accountId := accountId, status := UpdateStatus.pending,
      startedAt := none, completedAt := none, errorMessage := none,
      createdAt := currentTime }
  (rows1 ++ [newRow], newRow)

/-- What the non-forced branch of `AccountManager.update_account_cookie`
decides right after `try_create_or_get_active`: refuse with the
"update in progress" message when `is_created` is false, otherwise proceed
with the returned row. -/
inductive RefreshDecision where
  | refused
  | proceeds (row : UpdateRow)
  deriving DecidableEq, Repr

/-- The single-flight guard of the non-forced `update_account_cookie` path. -/
def refreshCookieBegin (rows : List UpdateRow) (accountId : Nat)
    (freshId : Nat) (t : LocalTime) : RefreshDecision × List UpdateRow :=
  let r := tryCreateOrGetActive rows accountId freshId t
  if r.1.1 then (RefreshDecision.proceeds r.1.2, r.2) else (RefreshDecision.refused, r.2)

/-- Number of active update rows of one account. -/
def countActive (rows : List UpdateRow) (accountId : Nat) : Nat :=
  (rows.filter fun r => decide (r.accountId = accountId) && r.isActive).length

/-- The single-flight invariant: at most one active row per account. -/
def AtMostOneActive (rows : List UpdateRow) : Prop :=
  ∀ accountId, countActive rows accountId ≤ 1

/-- One poll of `POST /getTaskResult` as the solve loop sees it: either an
HTTP response (status code, the body's `status` field and the token extracted
from `result.response`, empty when missing) or a transport error. -/
inductive PollOutcome where
  | httpResponse (statusCode : Nat) (bodyStatus : String) (token : String)
  | networkError
  deriving DecidableEq, Repr

/-- What one iteration of the `CloudflyerSolver.solve` loop extracts from a
poll: a token only for an HTTP 200 whose body says `completed` and carries a
non-empty token; every other shape (other statuses, other codes, missing
token, transport error) is treated as still pending. -/
def pollResult : PollOutcome → Option String
  | PollOutcome.networkError => none
  | PollOutcome.httpResponse code bodyStatus token =>
    if code = 200 ∧ bodyStatus = "completed" ∧ token ≠ "" then some token else none

/-- The poll loop of `CloudflyerSolver.solve` (`for attempt in
range(1, max_retries + 1)`), from a given attempt on.  Returns the list of
`(attempt, max_retries)` pairs passed to the progress callback, one per poll,
together with the token if one was obtained. -/
def solveLoop (polls : Nat → PollOutcome) (maxRetries : Nat) (attempt : Nat) :
    List (Nat × Nat) × Option String :=
  if maxRetries < attempt then ([], none)
  else
    match pollResult (polls attempt) with
    | some token => ([(attempt, maxRetries)], some token)
    | none =>
      let rest := solveLoop polls maxRetries (attempt + 1)
      ((attempt, maxRetries) :: rest.1, rest.2)
termination_by maxRetries + 1 - attempt

/-- `CloudflyerSolver.solve`: a failed `createTask` returns nothing before
any poll; otherwise the poll loop runs from attempt 1. -/
def solve (createTaskOk : Bool) (polls : Nat → PollOutcome) (maxRetries : Nat) :
    List (Nat × Nat) × Option String :=
  if createTaskOk then solveLoop polls maxRetries 1 else ([], none)

/-- Default of `Settings.captcha_max_retries` (`config/settings.py`). -/
def captchaMaxRetriesDefault : Nat := 20

/-- Python `sub in msg` substring containment on the character lists. -/
def containsSub (sub : List Char) : List Char → Bool
  | [] => sub.isEmpty
  | c :: rest => sub.isPrefixOf (c :: rest) || containsSub sub rest

/-- The JSON body of a check-in response as `NodeSeekAdapter.checkin` reads
it: `message` (defaulting to the empty string), the truthiness of `success`
and the optional numeric `status` field. -/
structure AttendanceBody where
  message : String
  success : Bool
  status : Option Int
  deriving DecidableEq, Repr

/-- `NodeSeekAdapter.checkin` response classification.  `creditsBefore` is
the balance read before the POST, `refetchBalance` the balance re-read in the
success branch and `deltaFetch` the `(balance, today_delta)` pair from
`_fetch_credits_and_delta`; all three are oracles for the HTTP reads. -/
def nodeseekCheckin (creditsBefore : Option Int) (refetchBalance : Option Int)
    (deltaFetch : Option Int × Int) (statusCode : Nat) (body : AttendanceBody) :
    AdapterResult :=
  if statusCode = 403 then
    { success := false, status := CheckinStatus.failed,
      message := "被 Cloudflare 拦截，请更新 Cookie", creditsDelta := 0,
      creditsBefore := creditsBefore, creditsAfter := creditsBefore,
      errorCode := some "blocked" }
  else if containsSub "鸡腿".toList body.message.toList || body.success then
    let creditsAfter := refetchBalance
    { success := true, status := CheckinStatus.success, message := body.message,
      creditsDelta := creditsAfter.getD 0 - creditsBefore.getD 0,
      creditsBefore := creditsBefore, creditsAfter := creditsAfter,
      errorCode := none }
  else if containsSub "已完成签到".toList body.message.toList then
    let creditsAfter :=
      match deltaFetch.1 with
      | none => creditsBefore
      | some c => some c
    { success := true, status := CheckinStatus.success, message := body.message,
      creditsDelta := deltaFetch.2, creditsBefore := creditsBefore,
      creditsAfter := creditsAfter, errorCode := none }
  else if body.status = some 404 then
    { success := false, status := CheckinStatus.failed, message := "Cookie 无效",
      creditsDelta := 0, creditsBefore := none, creditsAfter := none,
      errorCode := some "invalid_cookie" }
  else
    { success := false, status := CheckinStatus.failed, message := body.message,
      creditsDelta := 0, creditsBefore := creditsBefore,
      creditsAfter := creditsBefore, errorCode := some "checkin_failed" }

/-- The base64 alphabet, index = sextet value. -/
def b64Alphabet : List Char :=
  "ABCDEFGHIJKLMNOPQRSTUVWXYZabcdefghijklmnopqrstuvwxyz0123456789+/".toList

/-- Character for one sextet. -/
def sextetToChar (s : Nat) : Char :=
  b64Alphabet.getD s '='

/-- Sextet for one character; `none` for characters outside the alphabet
(in particular for the padding character). -/
def charToSextet (c : Char) : Option Nat :=
  b64Alphabet.findIdx? fun x => x = c

/-- Standard base64 of a byte list (`base64.b64encode`): three bytes become
four alphabet characters, a trailing one- or two-byte group is padded with
one or two `=`. -/
def b64encode : List Nat → List Char
  | [] => []
  | [a] =>
    [sextetToChar (a / 4), sextetToChar (a % 4 * 16), '=', '=']
  | [a, b] =>
    [sextetToChar (a / 4), sextetToChar (a % 4 * 16 + b / 16),
      sextetToChar (b % 16 * 4), '=']
  | a :: b :: c :: rest =>
    sextetToChar (a / 4) :: sextetToChar (a % 4 * 16 + b / 16) ::
      sextetToChar (b % 16 * 4 + c / 64) :: sextetToChar (c % 64) ::
      b64encode rest

/-- Decode one four-character base64 group into its one, two or three
bytes, `none` when a character is invalid. -/
def b64decodeChunk (c1 c2 c3 c4 : Char) : Option (List Nat) :=
  match charToSextet c1, charToSextet c2 with
  | some s1, some s2 =>
    if c3 = '=' then some [s1 * 4 + s2 / 16]
    else
      match charToSextet c3 with
      | some s3 =>
        if c4 = '=' then some [s1 * 4 + s2 / 16, s2 % 16 * 16 + s3 / 4]
        else
          match charToSextet c4 with
          | some s4 =>
            some [s1 * 4 + s2 / 16, s2 % 16 * 16 + s3 / 4, s3 % 4 * 64 + s4]
          | none => none
      | none => none
  | _, _ => none

/-- Base64 decoding (`base64.b64decode`), chunk by chunk; inputs whose
length is not a multiple of four are rejected. -/
def b64decode : List Char → Option (List Nat)
  | [] => some []
  | c1 :: c2 :: c3 :: c4 :: rest =>
    match b64decodeChunk c1 c2 c3 c4, b64decode rest with
    | some bytes, some more => some (bytes ++ more)
    | _, _ => none
  | _ => none

/-- The AES-256-GCM primitive supplied by the external `cryptography`
library, abstracted as an encrypt/decrypt pair over key, nonce and message
byte lists (the ciphertext includes the authentication tag). -/
structure AeadCipher where
  enc : List Nat → List Nat → List Nat → List Nat
  dec : List Nat → List Nat → List Nat → Option (List Nat)

/-- The library's correctness contract: decryption inverts encryption under
the same key and nonce. -/
def AeadCipher.Correct (c : AeadCipher) : Prop :=
  ∀ key nonce msg, c.dec key nonce (c.enc key nonce msg) = some msg

/-- The ciphertext is a byte string. -/
def AeadCipher.ByteValued (c : AeadCipher) : Prop :=
  ∀ key nonce msg, (∀ x ∈ msg, x < 256) → ∀ x ∈ c.enc key nonce msg, x < 256

/-- A trivially correct cipher (identity), used only to instantiate
witnesses of theorems that are parametric in the AEAD primitive. -/
def idCipher : AeadCipher :=
  { enc := fun _ _ msg => msg, dec := fun _ _ ct => some ct }

/-- `core/encryption.encrypt_password`: draw a 12-byte nonce (modelled as the
`nonce` argument, the value `os.urandom(12)` produced), GCM-encrypt the
UTF-8 bytes of the password, prepend the nonce and base64 the result. -/
def encrypt_password (cipher : AeadCipher) (key nonce password : List Nat) :
    List Char :=
  b64encode (nonce ++ cipher.enc key nonce password)

/-- `core/encryption.decrypt_password`: base64-decode, split off the first
12 bytes as the nonce and GCM-decrypt the remainder. -/
def decrypt_password (cipher : AeadCipher) (key : List Nat)
    (encryptedData : List Char) : Option (List Nat) :=
  match b64decode encryptedData with
  | none => none
  | some combined => cipher.dec key (combined.take 12) (combined.drop 12)

/-! ## Theorems settling the claims -/

theorem solveLoop_length (polls : Nat → PollOutcome) (m a : Nat) :
    (solveLoop polls m a).1.length ≤ m + 1 - a := by
  rw [solveLoop]
  by_cases h : m < a
  · simp [h]
  · cases hp : pollResult (polls a)
    · have ih := solveLoop_length polls m (a + 1)
      simp only [h, if_false, hp]
      simp only [List.length_cons]
      omega
    · simp only [h, if_false, hp, List.length_singleton]
      omega
termination_by m + 1 - a

theorem solveLoop_callbacks (polls : Nat → PollOutcome) (m a : Nat) :
    (solveLoop polls m a).1 =
      (List.range' a (solveLoop polls m a).1.length).map (fun i => (i, m)) := by
  rw [solveLoop]
  by_cases h : m < a
  · simp [h]
  · cases hp : pollResult (polls a)
    · have ih := solveLoop_callbacks polls m (a + 1)
      simp only [h, if_false, hp, List.length_cons, List.range'_succ, List.map_cons]
      exact congrArg _ ih
    · simp [h, hp, List.range'_one]
termination_by m + 1 - a

theorem solveLoop_none (polls : Nat → PollOutcome) (m a : Nat)
    (h : ∀ i, a ≤ i → i ≤ m → pollResult (polls i) = none) :
    (solveLoop polls m a).2 = none := by
  rw [solveLoop]
  by_cases hlt : m < a
  · simp [hlt]
  · have hp : pollResult (polls a) = none := h a le_rfl (by omega)
    have ih := solveLoop_none polls m (a + 1) fun i h1 h2 => h i (by omega) h2
    simp only [hlt, if_false, hp]
    exact ih
termination_by m + 1 - a

theorem solveLoop_some (polls : Nat → PollOutcome) (m a : Nat) (tok : String)
    (h : (solveLoop polls m a).2 = some tok) :
    ∃ i, a ≤ i ∧ i ≤ m ∧ pollResult (polls i) = some tok := by
  rw [solveLoop] at h
  by_cases hlt : m < a
  · simp [hlt] at h
  · cases hp : pollResult (polls a) with
    | none =>
      simp only [hlt, if_false, hp] at h
      obtain ⟨i, h1, h2, h3⟩ := solveLoop_some polls m (a + 1) tok h
      exact ⟨i, by omega, h2, h3⟩
    | some t =>
      simp only [hlt, if_false, hp, Option.some.injEq] at h
      exact ⟨a, le_rfl, by omega, by rw [hp, h]⟩
termination_by m + 1 - a

theorem charToSextet_sextetToChar : ∀ s : Nat, s < 64 → charToSextet (sextetToChar s) = some s := by
  decide

theorem sextetToChar_ne_pad : ∀ s : Nat, s < 64 → sextetToChar s ≠ '=' := by
  decide

theorem b64decode_b64encode : ∀ (bs : List Nat), (∀ x ∈ bs, x < 256) →
    b64decode (b64encode bs) = some bs
  | [], _ => rfl
  | [a], h => by
    have ha : a < 256 := h a (by simp)
    have h1 : a / 4 < 64 := by omega
    have h2 : a % 4 * 16 < 64 := by omega
    simp only [b64encode, b64decode, b64decodeChunk,
      charToSextet_sextetToChar _ h1, charToSextet_sextetToChar _ h2]
    simp
    omega
  | [a, b], h => by
    have ha : a < 256 := h a (by simp)
    have hb : b < 256 := h b (by simp)
    have h1 : a / 4 < 64 := by omega
    have h2 : a % 4 * 16 + b / 16 < 64 := by omega
    have h3 : b % 16 * 4 < 64 := by omega
    simp only [b64encode, b64decode, b64decodeChunk,
      charToSextet_sextetToChar _ h1, charToSextet_sextetToChar _ h2,
      charToSextet_sextetToChar _ h3]
    simp [sextetToChar_ne_pad _ h3]
    omega
  | a :: b :: c :: rest, h => by
    have ha : a < 256 := h a (by simp)
    have hb : b < 256 := h b (by simp)
    have hc : c < 256 := h c (by simp)
    have ih := b64decode_b64encode rest (fun x hx => h x (by simp [hx]))
    have h1 : a / 4 < 64 := by omega
    have h2 : a % 4 * 16 + b / 16 < 64 := by omega
    have h3 : b % 16 * 4 + c / 64 < 64 := by omega
    have h4 : c % 64 < 64 := by omega
    simp only [b64encode, b64decode, b64decodeChunk,
      charToSextet_sextetToChar _ h1, charToSextet_sextetToChar _ h2,
      charToSextet_sextetToChar _ h3, charToSextet_sextetToChar _ h4, ih]
    simp [sextetToChar_ne_pad _ h3, sextetToChar_ne_pad _ h4]
    refine ⟨?_, ?_, ?_⟩ <;> omega

theorem latestUpdateRow_eq_none_iff (f : UpdateRow → Int) (l : List UpdateRow) :
    latestUpdateRow f l = none ↔ l = [] := by
  cases l with
  | nil => simp [latestUpdateRow]
  | cons r rs =>
    simp only [latestUpdateRow]
    cases h : latestUpdateRow f rs
    · simp
    · simp only [h]
      constructor
      · intro hc
        split at hc <;> simp_all
      · intro hc
        simp at hc

theorem getActiveRow_none_iff (rows : List UpdateRow) (aid : Nat) :
    getActiveRow rows aid = none ↔
      (rows.filter fun r => decide (r.accountId = aid) && r.isActive) = [] := by
  exact latestUpdateRow_eq_none_iff _ _

theorem countActive_append (rows : List UpdateRow) (nr : UpdateRow) (aid : Nat) :
    countActive (rows ++ [nr]) aid =
      countActive rows aid +
        (if (decide (nr.accountId = aid) && nr.isActive) = true then 1 else 0) := by
  unfold countActive
  rw [List.filter_append]
  rw [List.length_append]
  congr 1
  simp only [List.filter_cons, List.filter_nil]
  cases hc : (decide (nr.accountId = aid) && nr.isActive)
  · simp [hc]
  · simp [hc]

theorem tryCreate_of_no_active (rows : List UpdateRow) (aid fid : Nat)
    (t : LocalTime) (h : getActiveRow rows aid = none) :
    tryCreateOrGetActive rows aid fid t =
      ((true, UpdateRow.mk fid aid UpdateStatus.pending none none none t),
        rows ++ [UpdateRow.mk fid aid UpdateStatus.pending none none none t]) := by
  simp [tryCreateOrGetActive, h]

theorem tryCreate_of_active (rows : List UpdateRow) (aid fid : Nat)
    (t : LocalTime) (e : UpdateRow) (h : getActiveRow rows aid = some e) :
    tryCreateOrGetActive rows aid fid t =
      ((decide (e.status = UpdateStatus.pending ∧ e.createdAt = t), e), rows) := by
  simp [tryCreateOrGetActive, h]

theorem tryCreate_preserves (rows : List UpdateRow) (aid fid : Nat)
    (t : LocalTime) (hinv : AtMostOneActive rows) :
    AtMostOneActive (tryCreateOrGetActive rows aid fid t).2 := by
  cases h : getActiveRow rows aid with
  | some e =>
    rw [tryCreate_of_active rows aid fid t e h]
    exact hinv
  | none =>
    rw [tryCreate_of_no_active rows aid fid t h]
    intro aid'
    rw [countActive_append]
    by_cases ha : aid = aid'
    · subst ha
      have h0 : countActive rows aid = 0 := by
        unfold countActive
        rw [(getActiveRow_none_iff rows aid).mp h]
        rfl
      simp [h0, UpdateRow.isActive]
    · have := hinv aid'
      simp only [ha]
      simp [ha]
      omega

/-- C2 (amended): `try_create_or_get_active` is one atomic step that
preserves the at-most-one-active invariant; when no active row exists it
inserts a fresh `pending` row stamped with the caller's clock reading and
reports it as created, and when two non-forced `refresh_cookie` requests for
the same account run concurrently, exactly one new update row is created —
the second caller is refused with "update in progress" provided its `now()`
reading differs from the first row's `created_at` (the code judges
"created" by `status == pending and created_at == current_time`). -/
theorem c2_single_flight (rows : List UpdateRow) (aid fid1 fid2 : Nat)
    (t1 t2 : LocalTime) (r1 r2 : RefreshDecision × List UpdateRow)
    (hinv : AtMostOneActive rows) (hno : getActiveRow rows aid = none)
    (hne : t2 ≠ t1)
    (hr1 : r1 = refreshCookieBegin rows aid fid1 t1)
    (hr2 : r2 = refreshCookieBegin r1.2 aid fid2 t2) :
    r1.1 = RefreshDecision.proceeds
      (UpdateRow.mk fid1 aid UpdateStatus.pending none none none t1) ∧
    r1.2 = rows ++ [UpdateRow.mk fid1 aid UpdateStatus.pending none none none t1] ∧
    r2.1 = RefreshDecision.refused ∧
    r2.2 = r1.2 ∧
    AtMostOneActive r1.2 ∧
    AtMostOneActive r2.2 := by
  have hstep1 := tryCreate_of_no_active rows aid fid1 t1 hno
  have hfil : (rows.filter fun r => decide (r.accountId = aid) && r.isActive) = [] :=
    (getActiveRow_none_iff rows aid).mp hno
  set nr : UpdateRow := UpdateRow.mk fid1 aid UpdateStatus.pending none none none t1
    with hnr
  have hr1' : r1 = (RefreshDecision.proceeds nr, rows ++ [nr]) := by
    rw [hr1]
    unfold refreshCookieBegin
    rw [hstep1]
    rfl
  have hinv1 : AtMostOneActive (rows ++ [nr]) := by
    have := tryCreate_preserves rows aid fid1 t1 hinv
    rw [hstep1] at this
    exact this
  have hactive1 : getActiveRow (rows ++ [nr]) aid = some nr := by
    unfold getActiveRow
    rw [List.filter_append, hfil]
    simp [latestUpdateRow, UpdateRow.isActive, hnr]
  have hstep2 := tryCreate_of_active (rows ++ [nr]) aid fid2 t2 nr hactive1
  have hdec : decide (nr.status = UpdateStatus.pending ∧ nr.createdAt = t2) = false := by
    rw [decide_eq_false_iff_not]
    rintro ⟨-, hc⟩
    exact hne hc.symm
  have hr2' : r2 = (RefreshDecision.refused, rows ++ [nr]) := by
    rw [hr2, hr1']
    unfold refreshCookieBegin
    rw [hstep2, hdec]
    rfl
  refine ⟨?_, ?_, ?_, ?_, ?_, ?_⟩
  · rw [hr1']
  · rw [hr1']
  · rw [hr2']
  · rw [hr2', hr1']
  · rw [hr1']
    exact hinv1
  · rw [hr2']
    exact hinv1

/-- Witness for `c2_single_flight`: two refresh attempts at 09:00:00 and
09:00:01 local on an empty table. -/
theorem c2_single_flight_witness :
    (AtMostOneActive ([] : List UpdateRow) ∧
      getActiveRow [] 1 = none ∧
      ({ day := 0, hour := 9, minute := 1 } : LocalTime) ≠
        { day := 0, hour := 9, minute := 0 }) ∧
    (refreshCookieBegin [] 1 10 { day := 0, hour := 9, minute := 0 }).1 =
      RefreshDecision.proceeds
        (UpdateRow.mk 10 1 UpdateStatus.pending none none none
          { day := 0, hour := 9, minute := 0 }) ∧
    (refreshCookieBegin
        (refreshCookieBegin [] 1 10 { day := 0, hour := 9, minute := 0 }).2 1 11
        { day := 0, hour := 9, minute := 1 }).1 = RefreshDecision.refused :=
  ⟨⟨fun _ => by simp [countActive], rfl, by decide⟩,
    (c2_single_flight [] 1 10 11 { day := 0, hour := 9, minute := 0 }
        { day := 0, hour := 9, minute := 1 } _ _
        (fun _ => by simp [countActive]) rfl (by decide) rfl rfl).1,
    ((c2_single_flight [] 1 10 11 { day := 0, hour := 9, minute := 0 }
        { day := 0, hour := 9, minute := 1 } _ _
        (fun _ => by simp [countActive]) rfl (by decide) rfl rfl).2.2.1)⟩

/-- C2 counterexample: when the two concurrent callers read the same clock
instant, the second caller is NOT refused — `try_create_or_get_active`
returns the existing row with `created = true` (its heuristic
`status == pending and created_at == current_time` misfires) and the
refresh proceeds, although no second row was inserted. -/
theorem c2_counterexample :
    (refreshCookieBegin
        (refreshCookieBegin [] 1 10 { day := 0, hour := 9, minute := 0 }).2 1 11
        { day := 0, hour := 9, minute := 0 }).1 ≠ RefreshDecision.refused ∧
    (tryCreateOrGetActive
        (refreshCookieBegin [] 1 10 { day := 0, hour := 9, minute := 0 }).2 1 11
        { day := 0, hour := 9, minute := 0 }).1.1 = true ∧
    getActiveRow
        (refreshCookieBegin [] 1 10 { day := 0, hour := 9, minute := 0 }).2 1 =
      some (UpdateRow.mk 10 1 UpdateStatus.pending none none none
        { day := 0, hour := 9, minute := 0 }) := by
  refine ⟨?_, ?_, ?_⟩ <;> decide

/-- C8: the captcha solve loop polls at most `max_retries` times (default
20), invokes the progress callback with `(attempt, max_retries)` on every
poll, treats every response other than an HTTP 200 `completed` body with a
non-empty token — including network errors — as still pending and keeps
going, and returns nothing when the budget is exhausted with no token (or
when `createTask` already failed). -/
theorem c8_captcha_loop (createOk : Bool) (polls : Nat → PollOutcome) (m : Nat) :
    captchaMaxRetriesDefault = 20 ∧
    (solve createOk polls m).1.length ≤ m ∧
    (solve createOk polls m).1 =
      (List.range' 1 (solve createOk polls m).1.length).map (fun i => (i, m)) ∧
    ((∀ i, 1 ≤ i → i ≤ m → pollResult (polls i) = none) →
      (solve createOk polls m).2 = none) ∧
    (∀ tok, (solve createOk polls m).2 = some tok →
      ∃ i, 1 ≤ i ∧ i ≤ m ∧ pollResult (polls i) = some tok) ∧
    (∀ code bodyStatus tok, (code ≠ 200 ∨ bodyStatus ≠ "completed" ∨ tok = "") →
      pollResult (PollOutcome.httpResponse code bodyStatus tok) = none) ∧
    pollResult PollOutcome.networkError = none := by
  refine ⟨rfl, ?_, ?_, ?_, ?_, ?_, rfl⟩
  · cases createOk
    · simp [solve]
    · have := solveLoop_length polls m 1
      simpa [solve] using by omega
  · cases createOk
    · simp [solve]
    · simpa [solve] using solveLoop_callbacks polls m 1
  · intro h
    cases createOk
    · simp [solve]
    · simpa [solve] using solveLoop_none polls m 1 h
  · intro tok h
    cases createOk
    · simp [solve] at h
    · exact solveLoop_some polls m 1 tok (by simpa [solve] using h)
  · intro code bodyStatus tok h
    rcases h with h | h | h <;> simp [pollResult, h]

/-- Witness for `c8_captcha_loop`: with every poll a network error and a
budget of 2, the loop runs both polls and returns nothing. -/
theorem c8_captcha_loop_witness :
    (solve true (fun _ => PollOutcome.networkError) 2).2 = none ∧
    (solve true (fun _ => PollOutcome.networkError) 2).1.length ≤ 2 :=
  ⟨(c8_captcha_loop true (fun _ => PollOutcome.networkError) 2).2.2.2.1
      (fun _ _ _ => rfl),
    (c8_captcha_loop true (fun _ => PollOutcome.networkError) 2).2.1⟩

/-- C3 counterexample: the claim says the slot function returns
`t.minute / 12 + 1`; `calculate_slot` of local time 04:06 returns 0, not
`6 / 12 + 1 = 1`. -/
theorem c3_counterexample :
    ¬ (calculate_slot { day := 0, hour := 4, minute := 6 } =
        ({ day := 0, hour := 4, minute := 6 } : LocalTime).minute / 12 + 1) := by
  decide

/-- C3 (amended): the named slot utility `calculate_slot` returns
`t.minute / 12`, a value in 0..4; the anti-duplicate comparison in
`_should_checkin` builds its `(hour, slot)` pairs inline as
`(hour, minute / 12 + 1)` with slots numbered 1..5, and compares those pairs
for equality, so the two numberings differ by the constant offset 1 and the
comparison unit is unchanged. -/
theorem c3_slot_function (t t' : LocalTime) (hm : t.minute < 60) :
    calculate_slot t = t.minute / 12 ∧
    calculate_slot t < 5 ∧
    slotPair t = (t.hour, calculate_slot t + 1) ∧
    1 ≤ (slotPair t).2 ∧ (slotPair t).2 ≤ 5 ∧
    shouldCheckin [t'] t = !decide (slotPair t' = slotPair t) := by
  refine ⟨rfl, ?_, rfl, ?_, ?_, ?_⟩
  · show t.minute / 12 < 5
    omega
  · show 1 ≤ t.minute / 12 + 1
    omega
  · show t.minute / 12 + 1 ≤ 5
    omega
  · simp [shouldCheckin]

/-- Witness for `c3_slot_function` at 04:07 against an 04:06 log entry. -/
theorem c3_slot_function_witness :
    ({ day := 0, hour := 4, minute := 7 } : LocalTime).minute < 60 ∧
    (calculate_slot { day := 0, hour := 4, minute := 7 } =
        ({ day := 0, hour := 4, minute := 7 } : LocalTime).minute / 12 ∧
      calculate_slot { day := 0, hour := 4, minute := 7 } < 5 ∧
      slotPair { day := 0, hour := 4, minute := 7 } =
        (({ day := 0, hour := 4, minute := 7 } : LocalTime).hour,
          calculate_slot { day := 0, hour := 4, minute := 7 } + 1) ∧
      1 ≤ (slotPair { day := 0, hour := 4, minute := 7 }).2 ∧
      (slotPair { day := 0, hour := 4, minute := 7 }).2 ≤ 5 ∧
      shouldCheckin [{ day := 0, hour := 4, minute := 6 }]
          { day := 0, hour := 4, minute := 7 } =
        !decide (slotPair { day := 0, hour := 4, minute := 6 } =
          slotPair { day := 0, hour := 4, minute := 7 })) :=
  ⟨by decide,
    c3_slot_function { day := 0, hour := 4, minute := 7 }
      { day := 0, hour := 4, minute := 6 } (by decide)⟩

/-- C10: `manual_checkin` on an id with no account returns the fixed failure
dictionary (`success = False`, status `failed`, `user_id = None`), contacts
no site adapter, writes no log row and leaves the store unchanged. -/
theorem c10_missing_account (svc : ServiceState) (store : Store)
    (accountId : Nat) (res : AdapterResult) (now : LocalTime)
    (h : store.accounts accountId = none) :
    (manualCheckin svc store accountId res now).adapterInvoked = false ∧
    (manualCheckin svc store accountId res now).store.logs = store.logs ∧
    (manualCheckin svc store accountId res now).store.accounts = store.accounts ∧
    (manualCheckin svc store accountId res now).outcome.success = false ∧
    (manualCheckin svc store accountId res now).outcome.status = CheckinStatus.failed ∧
    (manualCheckin svc store accountId res now).outcome.userId = none ∧
    (manualCheckin svc store accountId res now).svc = svc := by
  simp [manualCheckin, h]

/-- Witness for `c10_missing_account` on an empty store. -/
theorem c10_missing_account_witness :
    (Store.mk (fun _ => none) []).accounts 7 = none ∧
    ((manualCheckin ⟨[], none⟩ (Store.mk (fun _ => none) []) 7
        ⟨true, CheckinStatus.success, "m", 0, none, none, none⟩
        { day := 0, hour := 0, minute := 0 }).adapterInvoked = false ∧
      (manualCheckin ⟨[], none⟩ (Store.mk (fun _ => none) []) 7
        ⟨true, CheckinStatus.success, "m", 0, none, none, none⟩
        { day := 0, hour := 0, minute := 0 }).store.logs = (Store.mk (fun _ => none) []).logs ∧
      (manualCheckin ⟨[], none⟩ (Store.mk (fun _ => none) []) 7
        ⟨true, CheckinStatus.success, "m", 0, none, none, none⟩
        { day := 0, hour := 0, minute := 0 }).store.accounts = (Store.mk (fun _ => none) []).accounts ∧
      (manualCheckin ⟨[], none⟩ (Store.mk (fun _ => none) []) 7
        ⟨true, CheckinStatus.success, "m", 0, none, none, none⟩
        { day := 0, hour := 0, minute := 0 }).outcome.success = false ∧
      (manualCheckin ⟨[], none⟩ (Store.mk (fun _ => none) []) 7
        ⟨true, CheckinStatus.success, "m", 0, none, none, none⟩
        { day := 0, hour := 0, minute := 0 }).outcome.status = CheckinStatus.failed ∧
      (manualCheckin ⟨[], none⟩ (Store.mk (fun _ => none) []) 7
        ⟨true, CheckinStatus.success, "m", 0, none, none, none⟩
        { day := 0, hour := 0, minute := 0 }).outcome.userId = none ∧
      (manualCheckin ⟨[], none⟩ (Store.mk (fun _ => none) []) 7
        ⟨true, CheckinStatus.success, "m", 0, none, none, none⟩
        { day := 0, hour := 0, minute := 0 }).svc = ⟨[], none⟩) :=
  ⟨rfl,
    c10_missing_account ⟨[], none⟩ (Store.mk (fun _ => none) []) 7
      ⟨true, CheckinStatus.success, "m", 0, none, none, none⟩
      { day := 0, hour := 0, minute := 0 } rfl⟩

/-- C9: the adapter classifies a check-in response in source order — HTTP 403
is `blocked`; a body whose message mentions "鸡腿" or whose `success` is true
is a success with `credits_delta` the re-read balance minus the balance read
before (each coalesced to 0 when missing, as the Python `or 0` does); a
message mentioning "已完成签到" is a success whose delta comes from the
today-delta inference; a body `status` of 404 is `invalid_cookie`; anything
else is `checkin_failed` carrying the server message. -/
theorem c9_classification (creditsBefore refetchBalance : Option Int)
    (deltaFetch : Option Int × Int) (statusCode : Nat) (body : AttendanceBody)
    (out : AdapterResult)
    (hout : out = nodeseekCheckin creditsBefore refetchBalance deltaFetch
      statusCode body) :
    (statusCode = 403 →
      out.success = false ∧ out.errorCode = some "blocked") ∧
    (statusCode ≠ 403 →
      (containsSub "鸡腿".toList body.message.toList = true ∨ body.success = true) →
      out.success = true ∧ out.status = CheckinStatus.success ∧
      out.creditsAfter = refetchBalance ∧
      out.creditsDelta = refetchBalance.getD 0 - creditsBefore.getD 0) ∧
    (statusCode ≠ 403 →
      containsSub "鸡腿".toList body.message.toList = false →
      body.success = false →
      containsSub "已完成签到".toList body.message.toList = true →
      out.success = true ∧ out.status = CheckinStatus.success ∧
      out.creditsDelta = deltaFetch.2) ∧
    (statusCode ≠ 403 →
      containsSub "鸡腿".toList body.message.toList = false →
      body.success = false →
      containsSub "已完成签到".toList body.message.toList = false →
      body.status = some 404 →
      out.success = false ∧ out.errorCode = some "invalid_cookie") ∧
    (statusCode ≠ 403 →
      containsSub "鸡腿".toList body.message.toList = false →
      body.success = false →
      containsSub "已完成签到".toList body.message.toList = false →
      body.status ≠ some 404 →
      out.success = false ∧ out.errorCode = some "checkin_failed" ∧
      out.message = body.message) := by
  subst hout
  refine ⟨fun h1 => ?_, fun h1 h2 => ?_, fun h1 h2a h2b h3 => ?_,
    fun h1 h2a h2b h3 h4 => ?_, fun h1 h2a h2b h3 h4 => ?_⟩
  · simp [nodeseekCheckin, h1]
  · rcases h2 with h2 | h2 <;> simp_all [nodeseekCheckin]
  · simp_all [nodeseekCheckin]
  · simp_all [nodeseekCheckin]
  · simp_all [nodeseekCheckin]

/-- Witness for `c9_classification`: an HTTP 403 is classified `blocked`. -/
theorem c9_classification_witness :
    (nodeseekCheckin (some 100) (some 105) (some 105, 5) 403
        ⟨"x", false, none⟩).success = false ∧
    (nodeseekCheckin (some 100) (some 105) (some 105, 5) 403
        ⟨"x", false, none⟩).errorCode = some "blocked" :=
  (c9_classification (some 100) (some 105) (some 105, 5) 403 ⟨"x", false, none⟩
    _ rfl).1 rfl

/-- C6: evaluating `force_create` at a concrete failing input.  The account
has one active `pending` row; `force_create` deletes it, then the INSERT
receives the Python function object `now` as the `created_at` parameter
(`account_update_repository.py:112`) and the driver rejects it, so no fresh
`pending` row stamped with the current instant is created.  The
spec-prescribed behaviour (`forceBeginSpec`) would return such a row. -/
theorem c6_force_create_eval :
    forceCreate
        [{ id := 3, accountId := 1, status := UpdateStatus.pending,
            startedAt := none, completedAt := none, errorMessage := none,
            createdAt := { day := 9, hour := 8, minute := 0 } }] 1 5
        { day := 10, hour := 9, minute := 0 } =
      ([], Except.error "DataError: invalid input for query argument created_at") ∧
    forceBeginSpec
        [{ id := 3, accountId := 1, status := UpdateStatus.pending,
            startedAt := none, completedAt := none, errorMessage := none,
            createdAt := { day := 9, hour := 8, minute := 0 } }] 1 5
        { day := 10, hour := 9, minute := 0 } =
      ([{ id := 5, accountId := 1, status := UpdateStatus.pending,
          startedAt := none, completedAt := none, errorMessage := none,
          createdAt := { day := 10, hour := 9, minute := 0 } }],
        { id := 5, accountId := 1, status := UpdateStatus.pending,
          startedAt := none, completedAt := none, errorMessage := none,
          createdAt := { day := 10, hour := 9, minute := 0 } }) := by
  constructor <;> rfl


/-- C7: with the AEAD primitive satisfying the library's correctness
contract, `decrypt_password` inverts `encrypt_password`; the output of
`encrypt_password` is the base64 encoding of the 12-byte nonce followed by
the GCM ciphertext-with-tag; and encrypting the same password under a
different (fresh) nonce yields a different ciphertext string. -/
theorem c7_encryption_roundtrip (cipher : AeadCipher)
    (key nonce nonce2 password : List Nat)
    (hC : cipher.Correct) (hB : cipher.ByteValued)
    (hlen : nonce.length = 12) (hn : ∀ x ∈ nonce, x < 256)
    (hlen2 : nonce2.length = 12) (hn2 : ∀ x ∈ nonce2, x < 256)
    (hne : nonce2 ≠ nonce) (hp : ∀ x ∈ password, x < 256) :
    decrypt_password cipher key (encrypt_password cipher key nonce password) =
      some password ∧
    b64decode (encrypt_password cipher key nonce password) =
      some (nonce ++ cipher.enc key nonce password) ∧
    encrypt_password cipher key nonce2 password ≠
      encrypt_password cipher key nonce password := by
  have hbytes : ∀ x ∈ nonce ++ cipher.enc key nonce password, x < 256 := by
    intro x hx
    rcases List.mem_append.mp hx with hx | hx
    · exact hn x hx
    · exact hB key nonce password hp x hx
  have hbytes2 : ∀ x ∈ nonce2 ++ cipher.enc key nonce2 password, x < 256 := by
    intro x hx
    rcases List.mem_append.mp hx with hx | hx
    · exact hn2 x hx
    · exact hB key nonce2 password hp x hx
  have h64 : b64decode (encrypt_password cipher key nonce password) =
      some (nonce ++ cipher.enc key nonce password) :=
    b64decode_b64encode _ hbytes
  have h64b : b64decode (encrypt_password cipher key nonce2 password) =
      some (nonce2 ++ cipher.enc key nonce2 password) :=
    b64decode_b64encode _ hbytes2
  refine ⟨?_, h64, ?_⟩
  · unfold decrypt_password
    rw [h64]
    show cipher.dec key ((nonce ++ cipher.enc key nonce password).take 12)
      ((nonce ++ cipher.enc key nonce password).drop 12) = some password
    rw [List.take_left' hlen, List.drop_left' hlen]
    exact hC key nonce password
  · intro heq
    rw [heq] at h64b
    rw [h64] at h64b
    have happ := Option.some.inj h64b
    have := List.append_inj_left happ (by rw [hlen, hlen2])
    exact hne (by rw [this])

/-- Witness for `c7_encryption_roundtrip` with the identity cipher, the
all-zero and all-one 12-byte nonces and the password bytes of "hi". -/
theorem c7_encryption_roundtrip_witness :
    (idCipher.Correct ∧ idCipher.ByteValued ∧
      (List.replicate 12 0).length = 12 ∧
      (List.replicate 12 1).length = 12 ∧
      (List.replicate 12 1 : List Nat) ≠ List.replicate 12 0) ∧
    (decrypt_password idCipher []
        (encrypt_password idCipher [] (List.replicate 12 0) [104, 105]) =
      some [104, 105] ∧
    b64decode (encrypt_password idCipher [] (List.replicate 12 0) [104, 105]) =
      some (List.replicate 12 0 ++ idCipher.enc [] (List.replicate 12 0) [104, 105]) ∧
    encrypt_password idCipher [] (List.replicate 12 1) [104, 105] ≠
      encrypt_password idCipher [] (List.replicate 12 0) [104, 105]) :=
  ⟨⟨fun _ _ _ => rfl, fun _ _ _ h => h, by decide, by decide, by decide⟩,
    c7_encryption_roundtrip idCipher [] (List.replicate 12 0)
      (List.replicate 12 1) [104, 105] (fun _ _ _ => rfl) (fun _ _ _ h => h)
      (by decide) (by decide) (by decide) (by decide) (by decide) (by decide)⟩

theorem shouldCheckin_eq_false_iff (logs : List LogRow) (accountId : Nat)
    (now : LocalTime) :
    shouldCheckin (getRecentSlots logs accountId now 4) now = false ↔
      ∃ r ∈ logs, r.accountId = accountId ∧ r.status = CheckinStatus.success ∧
        now.toMinutes - (4 * 1440 : Nat) < r.executedAt.toMinutes ∧
        slotPair r.executedAt = slotPair now := by
  rw [shouldCheckin]
  rw [Bool.eq_false_iff]
  simp only [ne_eq, List.all_eq_true, List.mem_map, List.mem_filter, not_forall,
    Bool.not_eq_true, Bool.not_eq_false, decide_eq_true_eq, getRecentSlots]
  constructor
  · rintro ⟨lt, ⟨r, ⟨hmem, hprops⟩, hlt⟩, hsp⟩
    subst hlt
    refine ⟨r, hmem, hprops.1, hprops.2.1, hprops.2.2, ?_⟩
    simpa using hsp
  · rintro ⟨r, hmem, h1, h2, h3, h4⟩
    exact ⟨r.executedAt, ⟨r, ⟨hmem, h1, h2, h3⟩, rfl⟩, by simpa using h4⟩


/-- C4: during a scheduled tick at time `t`, an account due this hour is
skipped — `_do_checkin` (and hence the site adapter) is never entered —
exactly when some `success` log row of the last 4 days falls in the same
`(hour, slot)` bucket as `t`; when no such row exists the check-in service
is run on the account. -/
theorem c4_anti_duplicate (svc : ServiceState) (store : Store)
    (account : Account) (res : AdapterResult) (now : LocalTime) :
    ((∃ r ∈ store.logs, r.accountId = account.id ∧
        r.status = CheckinStatus.success ∧
        now.toMinutes - (4 * 1440 : Nat) < r.executedAt.toMinutes ∧
        slotPair r.executedAt = slotPair now) →
      tickAccount svc store account res now = none) ∧
    ((¬ ∃ r ∈ store.logs, r.accountId = account.id ∧
        r.status = CheckinStatus.success ∧
        now.toMinutes - (4 * 1440 : Nat) < r.executedAt.toMinutes ∧
        slotPair r.executedAt = slotPair now) →
      tickAccount svc store account res now =
        some (doCheckin svc store account res now)) := by
  constructor
  · intro hex
    have hf : shouldCheckin (getRecentSlots store.logs account.id now 4) now = false :=
      (shouldCheckin_eq_false_iff store.logs account.id now).mpr hex
    simp [tickAccount, hf]
  · intro hnot
    have ht : shouldCheckin (getRecentSlots store.logs account.id now 4) now = true := by
      cases hb : shouldCheckin (getRecentSlots store.logs account.id now 4) now
      · exact absurd ((shouldCheckin_eq_false_iff store.logs account.id now).mp hb) hnot
      · rfl
    simp [tickAccount, ht]

/-- Witness for `c4_anti_duplicate`: a success log at local 04:06 today makes
the 04:07 tick skip the account; with no logs the 04:07 tick runs it. -/
theorem c4_anti_duplicate_witness :
    tickAccount ⟨[], none⟩
        (Store.mk (fun _ => none)
          [LogRow.mk 1 SiteType.nodeseek CheckinStatus.success (some "m") 5
            (some 100) (some 105) none { day := 100, hour := 4, minute := 6 }])
        (Account.mk 1 42 SiteType.nodeseek "alice" 105 1 (some 4))
        ⟨true, CheckinStatus.success, "m", 0, some 105, some 105, none⟩
        { day := 100, hour := 4, minute := 7 } = none ∧
    tickAccount ⟨[], none⟩ (Store.mk (fun _ => none) [])
        (Account.mk 1 42 SiteType.nodeseek "alice" 105 1 (some 4))
        ⟨true, CheckinStatus.success, "m", 0, some 105, some 105, none⟩
        { day := 100, hour := 4, minute := 7 } =
      some (doCheckin ⟨[], none⟩ (Store.mk (fun _ => none) [])
        (Account.mk 1 42 SiteType.nodeseek "alice" 105 1 (some 4))
        ⟨true, CheckinStatus.success, "m", 0, some 105, some 105, none⟩
        { day := 100, hour := 4, minute := 7 }) :=
  ⟨(c4_anti_duplicate ⟨[], none⟩
      (Store.mk (fun _ => none)
        [LogRow.mk 1 SiteType.nodeseek CheckinStatus.success (some "m") 5
          (some 100) (some 105) none { day := 100, hour := 4, minute := 6 }])
      (Account.mk 1 42 SiteType.nodeseek "alice" 105 1 (some 4))
      ⟨true, CheckinStatus.success, "m", 0, some 105, some 105, none⟩
      { day := 100, hour := 4, minute := 7 }).1 (by decide),
    (c4_anti_duplicate ⟨[], none⟩ (Store.mk (fun _ => none) [])
      (Account.mk 1 42 SiteType.nodeseek "alice" 105 1 (some 4))
      ⟨true, CheckinStatus.success, "m", 0, some 105, some 105, none⟩
      { day := 100, hour := 4, minute := 7 }).2 (by decide)⟩

theorem getTodaySuccessCount_zero_iff (logs : List LogRow) (aid d : Nat) :
    getTodaySuccessCount logs aid d = 0 ↔
      ∀ r ∈ logs, ¬(r.accountId = aid ∧ r.status = CheckinStatus.success ∧
        r.executedAt.day = d) := by
  unfold getTodaySuccessCount
  rw [List.length_eq_zero, List.filter_eq_nil_iff]
  simp

theorem numSuccessDays_append_other (logs : List LogRow) (r : LogRow) (i : Nat)
    (h : ¬(r.accountId = i ∧ r.status = CheckinStatus.success)) :
    numSuccessDays (logs ++ [r]) i = numSuccessDays logs i := by
  unfold numSuccessDays
  rw [List.filter_append]
  have hfil : (List.filter
      (fun x => decide (x.accountId = i ∧ x.status = CheckinStatus.success)) [r]) = [] := by
    simp only [List.filter_cons, List.filter_nil]
    rw [if_neg]
    simp [h]
  rw [hfil, List.append_nil]

theorem numSuccessDays_append_new (logs : List LogRow) (r : LogRow)
    (hst : r.status = CheckinStatus.success)
    (hcnt : getTodaySuccessCount logs r.accountId r.executedAt.day = 0) :
    numSuccessDays (logs ++ [r]) r.accountId = numSuccessDays logs r.accountId + 1 := by
  unfold numSuccessDays
  rw [List.filter_append]
  have hfil : (List.filter
      (fun x => decide (x.accountId = r.accountId ∧ x.status = CheckinStatus.success)) [r]) = [r] := by
    simp only [List.filter_cons, List.filter_nil]
    rw [if_pos]
    simp [hst]
  rw [hfil, List.map_append, List.toFinset_append]
  have hnotmem : r.executedAt.day ∉
      ((logs.filter fun x =>
        decide (x.accountId = r.accountId ∧ x.status = CheckinStatus.success)).map
          (fun x => x.executedAt.day)).toFinset := by
    rw [List.mem_toFinset, List.mem_map]
    rintro ⟨x, hx, hday⟩
    rw [List.mem_filter] at hx
    have hprops := of_decide_eq_true hx.2
    exact (getTodaySuccessCount_zero_iff logs r.accountId r.executedAt.day).mp hcnt x hx.1
      ⟨hprops.1, hprops.2, hday⟩
  have hsing : (List.map (fun x => x.executedAt.day) [r]).toFinset =
      ({r.executedAt.day} : Finset Nat) := by
    simp
  rw [hsing, Finset.union_comm, ← Finset.insert_eq,
    Finset.card_insert_of_not_mem hnotmem]


/-- C1 (amended): when the adapter returns success and no success row exists
for the current local day, exactly one log row is appended; `checkin_count`
is incremented by exactly 1 (and `credits` overwritten) only when the result
carries a non-null `credits_after` — when `credits_after` is null the row is
still appended but neither credits nor the counter change.  When a success
row already exists, no row is appended and the counter is unchanged (the
update, if any, passes increment 0).  Consequently `checkin_count` stays
equal to the number of distinct success days across such steps provided the
success result carries a balance. -/
theorem c1_success_logging (svc : ServiceState) (store : Store)
    (account : Account) (res : AdapterResult) (now : LocalTime)
    (out : DoCheckinResult)
    (hout : out = doCheckinAdapterPath svc store account res now)
    (hs : res.success = true) (hstat : res.status = CheckinStatus.success) :
    (getTodaySuccessCount store.logs account.id now.day = 0 →
      out.store.logs = store.logs ++
        [LogRow.mk account.id account.site CheckinStatus.success
          (some res.message) res.creditsDelta res.creditsBefore
          res.creditsAfter res.errorCode now]) ∧
    (getTodaySuccessCount store.logs account.id now.day = 0 →
      res.creditsAfter.isSome = true →
      out.store.accounts =
        updateCredits store.accounts account.id (res.creditsAfter.getD 0) 1) ∧
    (getTodaySuccessCount store.logs account.id now.day = 0 →
      res.creditsAfter = none → out.store.accounts = store.accounts) ∧
    (0 < getTodaySuccessCount store.logs account.id now.day →
      out.store.logs = store.logs) ∧
    (0 < getTodaySuccessCount store.logs account.id now.day →
      res.creditsAfter.isSome = true →
      out.store.accounts =
        updateCredits store.accounts account.id (res.creditsAfter.getD 0) 0) ∧
    (0 < getTodaySuccessCount store.logs account.id now.day →
      res.creditsAfter = none → out.store.accounts = store.accounts) ∧
    (res.creditsAfter.isSome = true →
      (∀ i a, store.accounts i = some a →
        a.checkinCount = numSuccessDays store.logs i) →
      ∀ i a, out.store.accounts i = some a →
        a.checkinCount = numSuccessDays out.store.logs i) := by
  subst hout
  refine ⟨?_, ?_, ?_, ?_, ?_, ?_, ?_⟩
  · intro h0
    simp [doCheckinAdapterPath, hs, hstat, h0]
  · intro h0 hsome
    obtain ⟨c, hc⟩ := Option.isSome_iff_exists.mp hsome
    simp [doCheckinAdapterPath, hs, h0, hc]
  · intro h0 hnone
    simp [doCheckinAdapterPath, hs, h0, hnone]
  · intro hpos
    simp [doCheckinAdapterPath, hs, hpos]
  · intro hpos hsome
    obtain ⟨c, hc⟩ := Option.isSome_iff_exists.mp hsome
    simp [doCheckinAdapterPath, hs, hpos, hc]
  · intro hpos hnone
    simp [doCheckinAdapterPath, hs, hpos, hnone]
  · intro hsome hinv i a hai
    obtain ⟨c, hc⟩ := Option.isSome_iff_exists.mp hsome
    rcases Nat.eq_zero_or_pos (getTodaySuccessCount store.logs account.id now.day)
      with h0 | hpos
    · have hlogs : (doCheckinAdapterPath svc store account res now).store.logs =
          store.logs ++
            [LogRow.mk account.id account.site CheckinStatus.success
              (some res.message) res.creditsDelta res.creditsBefore
              res.creditsAfter res.errorCode now] := by
        simp [doCheckinAdapterPath, hs, hstat, h0]
      have haccs : (doCheckinAdapterPath svc store account res now).store.accounts =
          updateCredits store.accounts account.id c 1 := by
        simp [doCheckinAdapterPath, hs, h0, hc]
      rw [haccs] at hai
      rw [hlogs]
      unfold updateCredits at hai
      by_cases hi : i = account.id
      · subst hi
        rw [if_pos rfl] at hai
        cases hsa : store.accounts account.id with
        | none => rw [hsa] at hai; simp at hai
        | some a0 =>
          rw [hsa] at hai
          simp only [Option.map_some'] at hai
          have ha := Option.some.inj hai
          rw [numSuccessDays_append_new _ _ rfl h0]
          rw [← ha]
          simp only []
          rw [hinv account.id a0 hsa]
      · rw [if_neg hi] at hai
        rw [numSuccessDays_append_other _ _ _ (fun hcon => hi hcon.1.symm)]
        exact hinv i a hai
    · have hlogs : (doCheckinAdapterPath svc store account res now).store.logs =
          store.logs := by
        simp [doCheckinAdapterPath, hs, hpos]
      have haccs : (doCheckinAdapterPath svc store account res now).store.accounts =
          updateCredits store.accounts account.id c 0 := by
        simp [doCheckinAdapterPath, hs, hpos, hc]
      rw [haccs] at hai
      rw [hlogs]
      unfold updateCredits at hai
      by_cases hi : i = account.id
      · subst hi
        rw [if_pos rfl] at hai
        cases hsa : store.accounts account.id with
        | none => rw [hsa] at hai; simp at hai
        | some a0 =>
          rw [hsa] at hai
          simp only [Option.map_some'] at hai
          have ha := Option.some.inj hai
          rw [← ha]
          simp only []
          rw [hinv account.id a0 hsa]
          omega
      · rw [if_neg hi] at hai
        exact hinv i a hai


/-- Witness for `c1_success_logging`: first success of the day with balance
105 appends one row and passes increment 1 to `update_credits`. -/
theorem c1_success_logging_witness :
    ((AdapterResult.mk true CheckinStatus.success "签到成功+5鸡腿" 5 (some 100)
        (some 105) none).success = true ∧
      (AdapterResult.mk true CheckinStatus.success "签到成功+5鸡腿" 5 (some 100)
        (some 105) none).status = CheckinStatus.success ∧
      getTodaySuccessCount (Store.mk (fun _ => none) []).logs 1 100 = 0) ∧
    (doCheckinAdapterPath ⟨[], some 100⟩ (Store.mk (fun _ => none) [])
        (Account.mk 1 42 SiteType.nodeseek "alice" 100 0 (some 4))
        (AdapterResult.mk true CheckinStatus.success "签到成功+5鸡腿" 5 (some 100)
          (some 105) none)
        { day := 100, hour := 4, minute := 1 }).store.logs =
      (Store.mk (fun _ => none) []).logs ++
        [LogRow.mk 1 SiteType.nodeseek CheckinStatus.success
          (some "签到成功+5鸡腿") 5 (some 100) (some 105) none
          { day := 100, hour := 4, minute := 1 }] ∧
    (doCheckinAdapterPath ⟨[], some 100⟩ (Store.mk (fun _ => none) [])
        (Account.mk 1 42 SiteType.nodeseek "alice" 100 0 (some 4))
        (AdapterResult.mk true CheckinStatus.success "签到成功+5鸡腿" 5 (some 100)
          (some 105) none)
        { day := 100, hour := 4, minute := 1 }).store.accounts =
      updateCredits (Store.mk (fun _ => none) []).accounts 1
        ((some (105 : Int)).getD 0) 1 :=
  ⟨⟨rfl, rfl, rfl⟩,
    (c1_success_logging ⟨[], some 100⟩ (Store.mk (fun _ => none) [])
      (Account.mk 1 42 SiteType.nodeseek "alice" 100 0 (some 4))
      (AdapterResult.mk true CheckinStatus.success "签到成功+5鸡腿" 5 (some 100)
        (some 105) none)
      { day := 100, hour := 4, minute := 1 } _ rfl rfl rfl).1 rfl,
    (c1_success_logging ⟨[], some 100⟩ (Store.mk (fun _ => none) [])
      (Account.mk 1 42 SiteType.nodeseek "alice" 100 0 (some 4))
      (AdapterResult.mk true CheckinStatus.success "签到成功+5鸡腿" 5 (some 100)
        (some 105) none)
      { day := 100, hour := 4, minute := 1 } _ rfl rfl rfl).2.1 rfl rfl⟩

/-- C1 counterexample: a success whose balance re-read failed
(`credits_after = None`, as the adapter produces when the credit endpoint
keeps failing) appends a log row but does NOT increment `checkin_count`, so
"a log row is appended and checkin_count is incremented by exactly 1" is
false, and the count ends one short of the number of success days. -/
theorem c1_counterexample :
    (doCheckin ⟨[], none⟩
        (Store.mk
          (fun i => if i = 1 then
            some (Account.mk 1 42 SiteType.nodeseek "alice" 100 0 (some 4))
          else none) [])
        (Account.mk 1 42 SiteType.nodeseek "alice" 100 0 (some 4))
        (AdapterResult.mk true CheckinStatus.success "签到成功" 0 (some 100)
          none none)
        { day := 100, hour := 4, minute := 1 }).adapterInvoked = true ∧
    (doCheckin ⟨[], none⟩
        (Store.mk
          (fun i => if i = 1 then
            some (Account.mk 1 42 SiteType.nodeseek "alice" 100 0 (some 4))
          else none) [])
        (Account.mk 1 42 SiteType.nodeseek "alice" 100 0 (some 4))
        (AdapterResult.mk true CheckinStatus.success "签到成功" 0 (some 100)
          none none)
        { day := 100, hour := 4, minute := 1 }).store.logs.length = 1 ∧
    Option.map Account.checkinCount
        ((doCheckin ⟨[], none⟩
          (Store.mk
            (fun i => if i = 1 then
              some (Account.mk 1 42 SiteType.nodeseek "alice" 100 0 (some 4))
            else none) [])
          (Account.mk 1 42 SiteType.nodeseek "alice" 100 0 (some 4))
          (AdapterResult.mk true CheckinStatus.success "签到成功" 0 (some 100)
            none none)
          { day := 100, hour := 4, minute := 1 }).store.accounts 1) = some 0 := by
  refine ⟨?_, ?_, ?_⟩ <;> rfl


/-- C5 at the failing input.  A service instance runs a first (successful)
check-in at 09:00: this caches `False` for the account (the entry is written
before the success row) and the cache is never refreshed afterwards.  A
second run at 09:30 the same day therefore reaches the adapter again
(`adapterInvoked = true`) although a success row for today exists — against
the claim (and spec scenario S3).  A fresh service state (no cache entry)
does short-circuit as the claim describes: no adapter call and a synthetic
success built from `today_success_delta` and the stored credits. -/
theorem c5_stale_cache_eval :
    0 < getTodaySuccessCount (doCheckin ⟨[], none⟩
        (Store.mk
          (fun i => if i = 1 then
            some (Account.mk 1 42 SiteType.nodeseek "alice" 100 0 (some 4))
          else none) [])
        (Account.mk 1 42 SiteType.nodeseek "alice" 100 0 (some 4))
        (AdapterResult.mk true CheckinStatus.success "签到成功+5鸡腿" 5
          (some 100) (some 105) none)
        { day := 100, hour := 9, minute := 0 }).store.logs 1 100 ∧
    (doCheckin ⟨[], none⟩
        (Store.mk
          (fun i => if i = 1 then
            some (Account.mk 1 42 SiteType.nodeseek "alice" 100 0 (some 4))
          else none) [])
        (Account.mk 1 42 SiteType.nodeseek "alice" 100 0 (some 4))
        (AdapterResult.mk true CheckinStatus.success "签到成功+5鸡腿" 5
          (some 100) (some 105) none)
        { day := 100, hour := 9, minute := 0 }).svc.todayCache.lookup 1 = some false ∧
    (doCheckin (doCheckin ⟨[], none⟩
        (Store.mk
          (fun i => if i = 1 then
            some (Account.mk 1 42 SiteType.nodeseek "alice" 100 0 (some 4))
          else none) [])
        (Account.mk 1 42 SiteType.nodeseek "alice" 100 0 (some 4))
        (AdapterResult.mk true CheckinStatus.success "签到成功+5鸡腿" 5
          (some 100) (some 105) none)
        { day := 100, hour := 9, minute := 0 }).svc (doCheckin ⟨[], none⟩
        (Store.mk
          (fun i => if i = 1 then
            some (Account.mk 1 42 SiteType.nodeseek "alice" 100 0 (some 4))
          else none) [])
        (Account.mk 1 42 SiteType.nodeseek "alice" 100 0 (some 4))
        (AdapterResult.mk true CheckinStatus.success "签到成功+5鸡腿" 5
          (some 100) (some 105) none)
        { day := 100, hour := 9, minute := 0 }).store
        (Account.mk 1 42 SiteType.nodeseek "alice" 105 1 (some 4))
        (AdapterResult.mk true CheckinStatus.success "已完成签到" 5 (some 105)
          (some 105) none)
        { day := 100, hour := 9, minute := 30 }).adapterInvoked = true ∧
    (doCheckin ⟨[], none⟩ (doCheckin ⟨[], none⟩
        (Store.mk
          (fun i => if i = 1 then
            some (Account.mk 1 42 SiteType.nodeseek "alice" 100 0 (some 4))
          else none) [])
        (Account.mk 1 42 SiteType.nodeseek "alice" 100 0 (some 4))
        (AdapterResult.mk true CheckinStatus.success "签到成功+5鸡腿" 5
          (some 100) (some 105) none)
        { day := 100, hour := 9, minute := 0 }).store
        (Account.mk 1 42 SiteType.nodeseek "alice" 105 1 (some 4))
        (AdapterResult.mk true CheckinStatus.success "已完成签到" 5 (some 105)
          (some 105) none)
        { day := 100, hour := 9, minute := 30 }).adapterInvoked = false ∧
    (doCheckin ⟨[], none⟩ (doCheckin ⟨[], none⟩
        (Store.mk
          (fun i => if i = 1 then
            some (Account.mk 1 42 SiteType.nodeseek "alice" 100 0 (some 4))
          else none) [])
        (Account.mk 1 42 SiteType.nodeseek "alice" 100 0 (some 4))
        (AdapterResult.mk true CheckinStatus.success "签到成功+5鸡腿" 5
          (some 100) (some 105) none)
        { day := 100, hour := 9, minute := 0 }).store
        (Account.mk 1 42 SiteType.nodeseek "alice" 105 1 (some 4))
        (AdapterResult.mk true CheckinStatus.success "已完成签到" 5 (some 105)
          (some 105) none)
        { day := 100, hour := 9, minute := 30 }).outcome =
      CheckinOutcome.mk true CheckinStatus.success "今日已签到" 5 (some 105)
        (some 105) none (some 42) := by
  refine ⟨?_, ?_, ?_, ?_, ?_⟩ <;> decide

end CheckinBot
